import Mathlib

/-!
Verification of the Kulan group-messaging example (`examples/kulan.py`) of the
petlib repository.

The elliptic-curve group is external to the repository (`petlib/ec.py` is a
thin OpenSSL binding), so points are modelled as an arbitrary additive
commutative monoid `Pt` with `ℕ`-scalar multiplication standing for
`Bn * EcPt`.  The byte strings and Python objects the protocol handles are
modelled symbolically by the inductive type `Data`: the external primitives
(SHA1, AES-GCM, ECDSA, the `petlib.encode` structured encoder) are ideal,
exactly as the specification assumes them correct, so a digest, ciphertext,
tag or signature is a symbolic term that is equal to another iff it was built
from the same inputs.

Python-level behaviour that the protocol code relies on (truthiness of byte
strings, `str()` on byte strings, dictionary lookup raising `KeyError`,
tuple-vs-point equality dispatching into `EcPt.__eq__`) is modelled
explicitly; each such modelling choice is documented at the definition.
-/

namespace Kulan

/-- Outcomes of a failing Python call in `kulan.py`: the explicit
`raise Exception("No decryption")`, plus the runtime errors the code can
raise (`KeyError` from a dict lookup, `AssertionError` from `assert`,
unpacking/type errors, and the AEAD/decoding failures of the external
primitives per the spec's error taxonomy). -/
inductive PyErr : Type where
  | noDecryption
  | keyError
  | assertionError
  | typeError
  | valueError
  | indexError
  | decodeError
  | decryptionFailure
  deriving DecidableEq, Repr

/-- Symbolic model of the Python values handled by `kulan.py` over an
abstract point type `Pt`.

Byte-string values: `raw` (concrete bytes), `exp` (a point's compressed
export), `hashD` (a SHA1 digest), `take n` (slicing `[:n]`), `app`
(concatenation of byte strings whose contents are symbolic), `encD`/`tagD`
(AES-GCM ciphertext and tag of key/iv/plaintext), `encodeD` (output of
`petlib.encode`'s structured encoder).

Object values: `ptD` (an `EcPt`), `sigD` (one `Bn` component of an ECDSA
signature: signing key, digest, and which of `(r, s)` it is), and Python
lists/tuples represented as `consD`/`nilD` chains. -/
inductive Data (Pt : Type) : Type where
  | raw : List Nat → Data Pt
  | exp : Pt → Data Pt
  | hashD : Data Pt → Data Pt
  | take : Nat → Data Pt → Data Pt
  | app : Data Pt → Data Pt → Data Pt
  | encD : Data Pt → Data Pt → Data Pt → Data Pt
  | tagD : Data Pt → Data Pt → Data Pt → Data Pt
  | encodeD : Data Pt → Data Pt
  | ptD : Pt → Data Pt
  | sigD : Nat → Data Pt → Bool → Data Pt
  | nilD : Data Pt
  | consD : Data Pt → Data Pt → Data Pt
  deriving DecidableEq

namespace Data

variable {Pt : Type}

/-- A Python list `[d1, ..., dn]` as a `Data` value. -/
def ofList : List (Data Pt) → Data Pt
  | [] => .nilD
  | d :: l => .consD d (ofList l)

/-- Recover the elements of a `Data` value that is a Python list;
`none` when the value is not a list. -/
def asList : Data Pt → Option (List (Data Pt))
  | .nilD => some []
  | .consD d l => (asList l).map (d :: ·)
  | _ => none

end Data

variable {Pt : Type}

instance instDecEqExcept {ε α : Type} [DecidableEq ε] [DecidableEq α] :
    DecidableEq (Except ε α)
  | .error x, .error y => decidable_of_iff (x = y) (by simp)
  | .error _, .ok _ => isFalse (by simp)
  | .ok _, .error _ => isFalse (by simp)
  | .ok x, .ok y => decidable_of_iff (x = y) (by simp)

/-- Modelled from the spec (`petlib.encode` is not under `src/`): the
structured encoder for heterogeneous field lists.  `encode` turns a list of
fields into one byte string. -/
def encode (l : List (Data Pt)) : Data Pt := .encodeD (Data.ofList l)

/-- Modelled from the spec (`petlib.encode` is not under `src/`): the decoder
inverse to `encode`; any byte string that is not an encoder output is
malformed (`DecodeError` in the spec's taxonomy). -/
def decode (d : Data Pt) : Option (List (Data Pt)) :=
  match d with
  | .encodeD dl => dl.asList
  | _ => none

/-- Modelled from the spec (`petlib.cipher` is not under `src/`):
`AEAD.encrypt(key, iv, plaintext) -> (ciphertext, tag)`, ideal. -/
def quick_gcm_enc (key iv m : Data Pt) : Data Pt × Data Pt :=
  (.encD key iv m, .tagD key iv m)

/-- Modelled from the spec (`petlib.cipher` is not under `src/`):
`AEAD.decrypt(key, iv, ciphertext, tag) -> plaintext | failure`.  The ideal
AEAD authenticates exactly the ciphertext/tag pairs produced by `encrypt`
under the same key and iv; every other input is a tag failure, reported as a
falsy result (the trial-decryption loop in `broadcast_decrypt` relies on a
falsy return rather than an exception). -/
def quick_gcm_dec [DecidableEq Pt] (key iv c t : Data Pt) : Option (Data Pt) :=
  match c with
  | .encD k i m => if key = k ∧ iv = i ∧ t = .tagD k i m then some m else none
  | _ => none

/-- Modelled from the spec (`petlib.ecdsa` is not under `src/`):
`Signature.sign(privkey, digest) -> (r, s)`.  The two `Bn` components are
symbolic tokens recording the signing key and the digest. -/
def do_ecdsa_sign (priv : Nat) (digest : Data Pt) : Data Pt × Data Pt :=
  (.sigD priv digest false, .sigD priv digest true)

/-- Modelled from the spec (`petlib.ecdsa` is not under `src/`):
`Signature.verify(pubkey, (r, s), digest) -> bool`, ideal: it accepts exactly
the signatures produced by `sign` on the same digest under the private key
matching `pub` (relative to the group generator `g`). -/
def do_ecdsa_verify [DecidableEq Pt] [AddCommMonoid Pt] (g : Pt) (pub : Pt)
    (sig : Data Pt × Data Pt) (digest : Data Pt) : Bool :=
  match sig with
  | (.sigD x d false, .sigD y e true) =>
      decide (x • g = pub) && decide (d = digest) && decide (y = x) && decide (e = digest)
  | _ => false

/-- Python truthiness (`if sym_key:` / `if not sym_key:`) of the values the
protocol can test: the empty byte string and the empty list are falsy; a
SHA1 digest, an AEAD tag, a point export and an encoder output are never
empty; a GCM ciphertext has exactly the plaintext's length; `take n` of a
byte string is empty iff `n = 0` or the string is; objects (`ptD`, `sigD`)
are truthy. -/
def pyTruthy : Data Pt → Bool
  | .raw [] => false
  | .raw (_ :: _) => true
  | .hashD _ => true
  | .take n d => match n with | 0 => false | _ + 1 => pyTruthy d
  | .app a b => pyTruthy a || pyTruthy b
  | .exp _ => true
  | .encD _ _ m => pyTruthy m
  | .tagD _ _ _ => true
  | .encodeD _ => true
  | .ptD _ => true
  | .sigD _ _ _ => true
  | .nilD => false
  | .consD _ _ => true

/-- Truthiness of `plaintext | failure`: the failure (`None`) is falsy. -/
def pyTruthyO : Option (Data Pt) → Bool
  | none => false
  | some d => pyTruthy d

/-- Python 2 `str()` as used by `steady_decrypt`: the identity on byte
strings (digests, slices, concatenations, exports, ciphertexts, tags,
encoder outputs are all `str` values in Python 2); on non-string objects it
falls back to `repr`, modelled as an opaque placeholder byte string starting
with `<` (no claim depends on the repr of an object). -/
def strD : Data Pt → Data Pt
  | .raw b => .raw b
  | .hashD d => .hashD d
  | .take n d => .take n d
  | .app a b => .app a b
  | .exp p => .exp p
  | .encD k i m => .encD k i m
  | .tagD k i m => .tagD k i m
  | .encodeD d => .encodeD d
  | _ => .raw [60]

/-- Byte-string concatenation `+`: concrete on concrete bytes, symbolic
otherwise. -/
def bplus : Data Pt → Data Pt → Data Pt
  | .raw a, .raw b => .raw (a ++ b)
  | a, b => .app a b

/-- Python dictionary lookup `d[key]` where the dictionary's keys are byte
strings: a non-string key object is never present (`KeyError`). -/
def lookupName (key : Data Pt) (dict : List (List Nat × Pt)) : Option Pt :=
  match key with
  | .raw nm => List.lookup nm dict
  | _ => none

section Derive

variable [AddCommMonoid Pt]

/-- `derive_2DH_sender(G, priv, pub1, pub2)` (kulan.py lines 17-21):
`sha1(export(priv * pub1) || export(priv * pub2))`.  The group handle `G` is
unused by the body and is dropped. -/
def derive_2DH_sender (priv : Nat) (pub1 pub2 : Pt) : Data Pt :=
  .hashD (.app (.exp (priv • pub1)) (.exp (priv • pub2)))

/-- `derive_2DH_receiver(G, pub, priv1, priv2)` (kulan.py lines 23-27):
`sha1(export(priv1 * pub) || export(priv2 * pub))`. -/
def derive_2DH_receiver (pub : Pt) (priv1 priv2 : Nat) : Data Pt :=
  .hashD (.app (.exp (priv1 • pub)) (.exp (priv2 • pub)))

/-- `derive_3DH_sender(G, priv1, priv2, pub1, pub2)` (kulan.py lines 30-35):
`sha1(export(priv1 * pub2) || export(priv2 * pub1) || export(priv2 * pub2))`. -/
def derive_3DH_sender (priv1 priv2 : Nat) (pub1 pub2 : Pt) : Data Pt :=
  .hashD (.app (.app (.exp (priv1 • pub2)) (.exp (priv2 • pub1))) (.exp (priv2 • pub2)))

/-- `derive_3DH_receiver(G, pub1, pub2, priv1, priv2)` (kulan.py lines 37-42):
`sha1(export(priv2 * pub1) || export(priv1 * pub2) || export(priv2 * pub2))`. -/
def derive_3DH_receiver (pub1 pub2 : Pt) (priv1 priv2 : Nat) : Data Pt :=
  .hashD (.app (.app (.exp (priv2 • pub1)) (.exp (priv1 • pub2))) (.exp (priv2 • pub2)))

end Derive

/-- A value of the directory `pki`: the tests map a name either to a pair of
long-term public points `(pub1, pub2)` or (for one entry of `test_broad`'s
`pki2`) to a single bare point. -/
inductive PkiEntry (Pt : Type) : Type where
  | single : Pt → PkiEntry Pt
  | pair : Pt → Pt → PkiEntry Pt
  deriving DecidableEq

/-- The state of a `KulanClient` (kulan.py lines 48-81).  The group handle is
represented by its generator `g`; the `aes` field is the AEAD capability and
needs no state.  Dictionaries are association lists keyed by byte strings. -/
structure KulanClient (Pt : Type) : Type where
  g : Pt
  priv : Nat
  pub : Pt
  pki : List (List Nat × PkiEntry Pt)
  name : List Nat
  admins : List (Data Pt)
  members : List (Data Pt)
  Ks : List (List Nat)
  priv_sign : Nat
  pub_sign : Pt
  current_dict : List (List Nat × Pt)
  priv_enc : Nat
  pub_enc : Pt

/-- `KulanClient.__init__(self, G, name, priv, pki)` (kulan.py lines 50-81).
The two `order.random()` draws for the ephemeral keys are passed in
explicitly as `priv_sign` and `priv_enc`.  Note line 75: the short-term
signer dictionary is initialised with the literal key `"me"` (bytes
`[109, 101]`), not with `name`. -/
def KulanClient.init [AddCommMonoid Pt] (g : Pt) (name : List Nat) (priv : Nat)
    (pki : List (List Nat × PkiEntry Pt)) (priv_sign priv_enc : Nat) : KulanClient Pt :=
  { g := g
    priv := priv
    pub := priv • g
    pki := pki
    name := name
    admins := []
    members := []
    Ks := []
    priv_sign := priv_sign
    pub_sign := priv_sign • g
    current_dict := [([109, 101], priv_sign • g)]
    priv_enc := priv_enc
    pub_enc := priv_enc • g }

/-- One iteration of the recipient loop of `broadcast_encrypt` (kulan.py
lines 92-96): the entry is unpacked as `(pub1, pub2)` — a directory value
that is a single bare point fails the tuple unpacking (`TypeError`) —, a
per-recipient key is derived with `derive_3DH_sender`, and `sym_key` is
encrypted under its first 16 bytes. -/
def mkRecipientPair [DecidableEq Pt] [AddCommMonoid Pt] (priv priv_enc : Nat)
    (sym_key iv : List Nat) (entry : PkiEntry Pt) : Except PyErr (Data Pt) :=
  match entry with
  | .pair pub1 pub2 =>
      let K := derive_3DH_sender priv priv_enc pub1 pub2
      let ct := quick_gcm_enc (.take 16 K) (.raw iv) (.raw sym_key)
      .ok (Data.ofList [ct.1, ct.2])
  | .single _ => .error .typeError

/-- `KulanClient.broadcast_encrypt(self, plaintext)` (kulan.py lines 83-104).
The `plaintext` argument is unused by the source.  The random draws
`urandom(16)` for `sym_key` and `iv` are passed in explicitly.  Returns the
call's result together with the client state after the call. -/
def KulanClient.broadcast_encrypt [DecidableEq Pt] [AddCommMonoid Pt] (c : KulanClient Pt)
    (plaintext : Data Pt) (sym_key iv : List Nat) :
    Except PyErr (Data Pt) × KulanClient Pt :=
  match c.pki.mapM (fun nv => mkRecipientPair c.priv c.priv_enc sym_key iv nv.2) with
  | .error e => (.error e, c)
  | .ok msg2 =>
      let inner_msg := encode [.raw c.name, .ptD c.pub_sign]
      let ct2 := quick_gcm_enc (.raw sym_key) (.raw iv) inner_msg
      (.ok (encode [.ptD c.pub, .ptD c.pub_enc, .raw iv, Data.ofList msg2,
        Data.ofList [ct2.1, ct2.2]]), c)

/-- The trial-decryption loop of `broadcast_decrypt` (kulan.py lines
114-118): `sym_key` starts as `None`; each entry is unpacked as
`(cip, tag)` (anything but a 2-element sequence fails the unpacking),
decrypted with the single derived key, and the loop breaks at the first
truthy plaintext.  After the loop `sym_key` holds the first truthy
plaintext, or the last attempt's falsy result.  Iterating a value that is
not a list of pairs raises (a non-empty byte string yields 1-character
strings that fail the unpacking; objects are not iterable). -/
def trial_loop [DecidableEq Pt] (K iv : Data Pt) (sym_key : Option (Data Pt)) :
    Data Pt → Except PyErr (Option (Data Pt))
  | .nilD => .ok sym_key
  | .consD e rest =>
      match e with
      | .consD cip (.consD tag .nilD) =>
          let s := quick_gcm_dec K iv cip tag
          if pyTruthyO s then .ok s else trial_loop K iv s rest
      | _ => .error .valueError
  | .raw [] => .ok sym_key
  | .raw (_ :: _) => .error .valueError
  | .ptD _ => .error .typeError
  | .sigD _ _ _ => .error .typeError
  | _ => .error .valueError

/-- The tail of `broadcast_decrypt` after a truthy `sym_key` was found
(kulan.py lines 124-131): decrypt the envelope's last element with
`sym_key`, decode the inner payload as `[name, sig_key]`, look the name up
in `pki` and compare the directory entry with the header point `pub1`.
The comparison `self.pki[name] == pub1` dispatches to `EcPt.__eq__`
(ec.py line 126) when the entry is a bare point; when the entry is a
`(pub1, pub2)` tuple, `tuple.__eq__` returns `NotImplemented` and the
reflected `EcPt.__eq__(pub1, entry)` hits `assert type(other) == EcPt`
(ec.py line 126), raising `AssertionError`. -/
def broadcast_finish [DecidableEq Pt] (c : KulanClient Pt) (sym_key iv : Data Pt)
    (pub1 : Pt) (lastD : Data Pt) : Except PyErr (Option (Data Pt × Data Pt)) :=
  match lastD with
  | .consD c2 (.consD t2 .nilD) =>
      match quick_gcm_dec sym_key iv c2 t2 with
      | none => .error .decryptionFailure
      | some plaintext =>
          match decode plaintext with
          | none => .error .decodeError
          | some [nameD, sig_key] =>
              match nameD with
              | .raw nm =>
                  match List.lookup nm c.pki with
                  | none => .error .keyError
                  | some (.single p) =>
                      if p = pub1 then .ok (some (nameD, sig_key)) else .ok none
                  | some (.pair _ _) => .error .assertionError
              | _ => .error .keyError
          | some _ => .error .valueError
  | _ => .error .valueError

/-- `KulanClient.broadcast_decrypt(self, msgs)` (kulan.py lines 106-131):
decode the envelope, unpack the header `pub1, pub2, iv = msgs[0:3]` (the
scalar multiplications inside `derive_3DH_receiver` require the first two
to be points), derive the receiver's single key, run the trial-decryption
loop over `msgs[3]`, raise `Exception("No decryption")` when `sym_key` is
falsy, and finish with the envelope's last element `msgs[-1]`. -/
def KulanClient.broadcast_decrypt [DecidableEq Pt] [AddCommMonoid Pt] (c : KulanClient Pt)
    (msgs : Data Pt) : Except PyErr (Option (Data Pt × Data Pt)) × KulanClient Pt :=
  match decode msgs with
  | none => (.error .decodeError, c)
  | some l =>
      match l with
      | d0 :: d1 :: d2 :: _ =>
          match d0, d1 with
          | .ptD pub1, .ptD pub2 =>
              let K := derive_3DH_receiver pub1 pub2 c.priv c.priv_enc
              match l.get? 3 with
              | none => (.error .indexError, c)
              | some entriesD =>
                  match trial_loop (.take 16 K) d2 none entriesD with
                  | .error e => (.error e, c)
                  | .ok sym_key =>
                      if pyTruthyO sym_key then
                        match sym_key with
                        | some sk =>
                            match l.getLast? with
                            | some lastD => (broadcast_finish c sk d2 pub1 lastD, c)
                            | none => (.error .indexError, c)
                        | none => (.error .noDecryption, c)
                      else (.error .noDecryption, c)
          | _, _ => (.error .typeError, c)
      | _ => (.error .valueError, c)

/-- `KulanClient.steady_encrypt(self, plaintext)` (kulan.py lines 134-152):
`assert len(self.Ks) > 0`; sign `sha1(Ks[-1] + plaintext)` with the
ephemeral signing key; encode `[B(name), B(plaintext), r, s]`; encrypt it
under `Ks[-1]` with a fresh `iv` (passed in explicitly); return
`encode([B(iv), B(ciphertext), B(tag)])`. -/
def KulanClient.steady_encrypt [DecidableEq Pt] (c : KulanClient Pt)
    (plaintext : List Nat) (iv : List Nat) : Except PyErr (Data Pt) × KulanClient Pt :=
  match c.Ks.getLast? with
  | none => (.error .assertionError, c)
  | some k =>
      let md := Data.hashD (bplus (.raw k) (.raw plaintext))
      let rs := do_ecdsa_sign c.priv_sign md
      let plain_inner := encode [.raw c.name, .raw plaintext, rs.1, rs.2]
      let ct := quick_gcm_enc (.raw k) (.raw iv) plain_inner
      (.ok (encode [.raw iv, ct.1, ct.2]), c)

/-- `KulanClient.steady_decrypt(self, ciphertext)` (kulan.py lines 155-173):
`assert len(self.Ks) > 0`; decode `[iv, ciphertext, tag]`; AEAD-decrypt with
`Ks[-1]` (a tag failure is a hard decryption failure, spec §4.3); decode
`[xname, xplain, r, s]`; recompute `sha1(Ks[-1] + str(xplain))`; look up
`current_dict[str(xname)]` (`KeyError` when absent); return `None` when the
signature does not verify, else `(xname, xplain)`. -/
def KulanClient.steady_decrypt [DecidableEq Pt] [AddCommMonoid Pt] (c : KulanClient Pt)
    (ciphertext : Data Pt) : Except PyErr (Option (Data Pt × Data Pt)) × KulanClient Pt :=
  match c.Ks.getLast? with
  | none => (.error .assertionError, c)
  | some k =>
      match decode ciphertext with
      | none => (.error .decodeError, c)
      | some [ivD, ctD, tagD] =>
          match quick_gcm_dec (.raw k) ivD ctD tagD with
          | none => (.error .decryptionFailure, c)
          | some plaintext =>
              match decode plaintext with
              | none => (.error .decodeError, c)
              | some [xname, xplain, r, s] =>
                  let md := Data.hashD (bplus (.raw k) (strD xplain))
                  match lookupName (strD xname) c.current_dict with
                  | none => (.error .keyError, c)
                  | some pub =>
                      if !(do_ecdsa_verify c.g pub (r, s) (strD md)) then (.ok none, c)
                      else (.ok (some (xname, xplain)), c)
              | some _ => (.error .valueError, c)
      | some _ => (.error .valueError, c)

/-!
Concrete clients over the group `ℤ` (generator `1`), mirroring the setup of
`test_steady` and `test_broad`: names are byte strings (`"a" = [97]`,
`"me" = [109, 101]`, `"al" = [97, 108]`, `"bo" = [98, 111]`).
-/

namespace Concrete

/-- A client named `"a"` with one mocked channel key, as `test_steady` mocks
`client.Ks += [urandom(16)]`. -/
def ca : KulanClient ℤ :=
  { KulanClient.init 1 [97] 11 [] 12 13 with Ks := [[5, 5]] }

/-- A client named `"me"` with one mocked channel key. -/
def cme : KulanClient ℤ :=
  { KulanClient.init 1 [109, 101] 11 [] 12 13 with Ks := [[5, 5]] }

/-- A sender named `"al"` whose directory holds the pair of public points of
the receiver `rc0`. -/
def s0 : KulanClient ℤ :=
  KulanClient.init 1 [97, 108] 2 [([98, 111], .pair 5 7)] 3 4

/-- A receiver named `"bo"` whose directory maps the sender's name `"al"` to
the bare point `s0.pub = 2` (the single-point directory shape of
`test_broad`'s `pki2`). -/
def rc0 : KulanClient ℤ :=
  KulanClient.init 1 [98, 111] 5 [([97, 108], .single 2)] 6 7

/-- Like `rc0`, but the directory maps `"al"` to a pair whose first component
`9` differs from the header point `s0.pub = 2`. -/
def rc1 : KulanClient ℤ :=
  KulanClient.init 1 [98, 111] 5 [([97, 108], .pair 9 7)] 6 7

/-- `rc0`'s trial-decryption key for an envelope with header points
`(2, 4) = (s0.pub, s0.pub_enc)`. -/
def K6 : Data ℤ := .take 16 (derive_3DH_receiver 2 4 (5 : Nat) (7 : Nat))

/-- An envelope whose first per-recipient entry is a valid AEAD encryption
of the empty byte string under `rc0`'s derived key, followed by an entry
that does not authenticate. -/
def env6 : Data ℤ := encode [.ptD 2, .ptD 4, .raw [9],
  Data.ofList [Data.ofList [.encD K6 (.raw [9]) (.raw []), .tagD K6 (.raw [9]) (.raw [])],
    Data.ofList [.raw [1], .raw [1]]],
  Data.ofList [.raw [2], .raw [2]]]

/-- An inner steady-channel payload naming the sender `"bo"`, who is not in
`cme`'s `current_dict`. -/
def inner5 : Data ℤ :=
  encode [.raw [98, 111], .raw [104], .sigD 99 (.raw []) false, .sigD 99 (.raw []) true]

/-- A steady-channel message carrying `inner5`, validly encrypted under
`cme`'s channel key `[5, 5]`. -/
def msg5 : Data ℤ :=
  encode [.raw [7], .encD (.raw [5, 5]) (.raw [7]) inner5, .tagD (.raw [5, 5]) (.raw [7]) inner5]

end Concrete

theorem Data.asList_ofList (l : List (Data Pt)) : Data.asList (Data.ofList l) = some l := by
  induction l with
  | nil => rfl
  | cons d l ih => simp [Data.ofList, Data.asList, ih]

theorem decode_encode (l : List (Data Pt)) : decode (encode l) = some l := by
  simp [decode, encode, Data.asList_ofList]

theorem nsmul_left_comm [AddCommMonoid Pt] (m n : Nat) (x : Pt) : m • n • x = n • m • x := by
  rw [← mul_nsmul, ← mul_nsmul, Nat.mul_comm]

/-- The trial-decryption loop on a well-formed list of `(ciphertext, tag)`
pairs never raises, and its result is the first truthy decryption when one
exists, a falsy value otherwise. -/
theorem trial_loop_find [DecidableEq Pt] (K ivd : Data Pt) (l : List (Data Pt × Data Pt)) :
    ∀ acc, pyTruthyO acc = false →
    ∃ res, trial_loop K ivd acc (Data.ofList (l.map fun p => Data.ofList [p.1, p.2])) = .ok res
      ∧ ((pyTruthyO res = true
            ∧ (l.map fun p => quick_gcm_dec K ivd p.1 p.2).find? pyTruthyO = some res)
         ∨ (pyTruthyO res = false
            ∧ (l.map fun p => quick_gcm_dec K ivd p.1 p.2).find? pyTruthyO = none)) := by
  induction l with
  | nil => exact fun acc hacc => ⟨acc, rfl, Or.inr ⟨hacc, rfl⟩⟩
  | cons p t ih =>
      intro acc hacc
      by_cases h : pyTruthyO (quick_gcm_dec K ivd p.1 p.2) = true
      · refine ⟨quick_gcm_dec K ivd p.1 p.2, ?_, Or.inl ⟨h, ?_⟩⟩
        · simp [Data.ofList, trial_loop, h]
        · simp [List.find?_cons_of_pos, h]
      · have h' : pyTruthyO (quick_gcm_dec K ivd p.1 p.2) = false := by
          simpa using h
        obtain ⟨res, h1, h2⟩ := ih (quick_gcm_dec K ivd p.1 p.2) h'
        refine ⟨res, ?_, ?_⟩
        · simpa [Data.ofList, trial_loop, h'] using h1
        · rcases h2 with ⟨ht, hf⟩ | ⟨ht, hf⟩
          · exact Or.inl ⟨ht, by simp [List.find?_cons_of_neg, h', hf]⟩
          · exact Or.inr ⟨ht, by simp [List.find?_cons_of_neg, h', hf]⟩

/-- C9: two-party key agreement commutes: for every group with generator `g`,
every private scalar `a` and all scalars `p, q` with `pub = a·g`, `P = p·g`,
`Q = q·g`, `derive_2DH_sender(G, a, P, Q) = derive_2DH_receiver(G, pub, p, q)`. -/
theorem derive_2DH_commutes [AddCommMonoid Pt] (g : Pt) (a p q : Nat) :
    derive_2DH_sender a (p • g) (q • g) = derive_2DH_receiver (a • g) p q := by
  simp only [derive_2DH_sender, derive_2DH_receiver, nsmul_left_comm]

/-- C1: three-party key agreement commutes: for every group with generator
`g`, private scalars `a, b, p, q` and public points `A = a·g`, `B = b·g`,
`P = p·g`, `Q = q·g`, `derive_3DH_sender(G, a, b, P, Q)` (hashing
`a·Q || b·P || b·Q`) equals `derive_3DH_receiver(G, A, B, p, q)` (hashing
`q·A || p·B || q·B`). -/
theorem derive_3DH_commutes [AddCommMonoid Pt] (g : Pt) (a b p q : Nat) :
    derive_3DH_sender a b (p • g) (q • g) = derive_3DH_receiver (a • g) (b • g) p q := by
  simp only [derive_3DH_sender, derive_3DH_receiver, nsmul_left_comm]

/-- C2 counterexample: the round-trip claim fails for a client whose name is
not `"me"`: for the client `ca` named `"a"` (with a non-empty channel key
list), `steady_decrypt(steady_encrypt("h"))` raises `KeyError` (line 169
looks the sender name up in `current_dict`, which line 75 initialised with
the literal key `"me"`), instead of returning `("a", "h")`. -/
theorem steady_roundtrip_cx :
    ((Concrete.ca.steady_encrypt [104] [7]).1.bind fun ct => (Concrete.ca.steady_decrypt ct).1)
        = .error .keyError
    ∧ ((Concrete.ca.steady_encrypt [104] [7]).1.bind fun ct => (Concrete.ca.steady_decrypt ct).1)
        ≠ .ok (some (.raw [97], .raw [104])) := by
  exact ⟨by decide, by decide⟩

/-- C2 (amended): for every client whose channel key list is non-empty and
whose `current_dict` maps the client's own name to its own signing public
key (as holds for a freshly constructed client named `"me"`), and every
plaintext `m` (the empty string included), the steady-channel round trip
returns `(senderName, m)`. -/
theorem steady_roundtrip_amended [DecidableEq Pt] [AddCommMonoid Pt]
    (c : KulanClient Pt) (k m iv : List Nat)
    (hk : c.Ks.getLast? = some k)
    (hname : List.lookup c.name c.current_dict = some c.pub_sign)
    (hsig : c.pub_sign = c.priv_sign • c.g) :
    ((c.steady_encrypt m iv).1.bind fun ct => (c.steady_decrypt ct).1)
      = .ok (some (.raw c.name, .raw m)) := by
  simp [KulanClient.steady_encrypt, KulanClient.steady_decrypt, hk, Except.bind,
    decode_encode, quick_gcm_enc, quick_gcm_dec, do_ecdsa_sign, do_ecdsa_verify,
    strD, bplus, lookupName, hname, hsig]

theorem steady_roundtrip_amended_witness :
    Concrete.cme.Ks.getLast? = some [5, 5]
    ∧ List.lookup Concrete.cme.name Concrete.cme.current_dict = some Concrete.cme.pub_sign
    ∧ Concrete.cme.pub_sign = Concrete.cme.priv_sign • Concrete.cme.g
    ∧ ((Concrete.cme.steady_encrypt [104] [7]).1.bind fun ct => (Concrete.cme.steady_decrypt ct).1)
        = .ok (some (.raw Concrete.cme.name, .raw [104])) :=
  ⟨by decide, by decide, by decide,
    steady_roundtrip_amended Concrete.cme [5, 5] [104] [7] (by decide) (by decide) (by decide)⟩

/-- C3: evaluating `broadcast_decrypt` at an envelope from the sender `s0`
received by `rc1`, whose directory maps the claimed name `"al"` to a pair
whose first component `9` differs from the header point `pub1 = 2`: the
comparison `self.pki[name] == pub1` (kulan.py line 129) compares a tuple
with an `EcPt` and raises `AssertionError` inside `EcPt.__eq__` (ec.py
line 126), rather than resulting in an authentication failure. -/
theorem broadcast_decrypt_pair_entry_assert :
    ((Concrete.s0.broadcast_encrypt (.raw []) [1, 2] [9]).1.bind
        fun env => (Concrete.rc1.broadcast_decrypt env).1)
      = .error .assertionError := by decide

/-- C4 counterexample: `rc0` successfully decrypts and authenticates an
introduction from `s0` (named `"al"`, ephemeral signing key `3`), yet its
`current_dict` afterwards has no entry for `"al"`: `broadcast_decrypt`
returns the pair without populating the signer directory. -/
theorem broadcast_decrypt_no_populate_cx :
    ((Concrete.s0.broadcast_encrypt (.raw []) [1, 2] [9]).1.bind
        fun env => (Concrete.rc0.broadcast_decrypt env).1)
      = .ok (some (.raw [97, 108], .ptD (3 : ℤ)))
    ∧ ((Concrete.s0.broadcast_encrypt (.raw []) [1, 2] [9]).1.bind
        fun env => .ok (List.lookup [97, 108]
          ((Concrete.rc0.broadcast_decrypt env).2).current_dict))
      = .ok none := by
  exact ⟨by decide, by decide⟩

/-- C4 (amended): `broadcast_decrypt` never modifies `CurrentSignerDirectory`:
for every client and every input, the client's `current_dict` after the call
equals its value before; the decoded `(name, signingKey)` pair is only
returned to the caller. -/
theorem broadcast_decrypt_keeps_current_dict [DecidableEq Pt] [AddCommMonoid Pt]
    (c : KulanClient Pt) (msgs : Data Pt) :
    ((c.broadcast_decrypt msgs).2).current_dict = c.current_dict := by
  unfold KulanClient.broadcast_decrypt
  dsimp only
  repeat' split
  all_goals rfl

/-- C5 counterexample: a steady-channel message whose AEAD decryption
succeeds but whose decoded sender name `"bo"` is absent from
`CurrentSignerDirectory` makes `steady_decrypt` raise `KeyError` (line 169),
which is not the authentication-failure result (the `None` return of line
171). -/
theorem steady_decrypt_unknown_sender_cx :
    (Concrete.cme.steady_decrypt Concrete.msg5).1 = .error .keyError
    ∧ (Concrete.cme.steady_decrypt Concrete.msg5).1 ≠ .ok none := by
  exact ⟨by decide, by decide⟩

/-- C5 (amended): for every steady-channel message whose AEAD decryption
succeeds and decodes to `[name, plaintext, r, s]`: when the sender name is
absent from `CurrentSignerDirectory` the call raises `KeyError` (a lookup
error, not the authentication-failure return), and when the name is present
but the signature does not verify the call returns the authentication
failure `None`; in neither case is the decrypted plaintext returned. -/
theorem steady_decrypt_auth_outcomes [DecidableEq Pt] [AddCommMonoid Pt]
    (c : KulanClient Pt) (k : List Nat) (ivd ctd tgd xname xplain r s : Data Pt)
    (hk : c.Ks.getLast? = some k)
    (hdec : quick_gcm_dec (.raw k) ivd ctd tgd = some (encode [xname, xplain, r, s])) :
    (lookupName (strD xname) c.current_dict = none →
      (c.steady_decrypt (encode [ivd, ctd, tgd])).1 = .error .keyError)
    ∧ ∀ pub, lookupName (strD xname) c.current_dict = some pub →
        do_ecdsa_verify c.g pub (r, s)
          (strD (Data.hashD (bplus (.raw k) (strD xplain)))) = false →
        (c.steady_decrypt (encode [ivd, ctd, tgd])).1 = .ok none := by
  constructor
  · intro hnone
    simp [KulanClient.steady_decrypt, hk, decode_encode, hdec, hnone]
  · intro pub hsome hverify
    simp [KulanClient.steady_decrypt, hk, decode_encode, hdec, hsome, hverify]

theorem steady_decrypt_auth_outcomes_witness :
    Concrete.cme.Ks.getLast? = some [5, 5]
    ∧ quick_gcm_dec (.raw [5, 5]) (.raw [7])
        (.encD (.raw [5, 5]) (.raw [7]) Concrete.inner5)
        (.tagD (.raw [5, 5]) (.raw [7]) Concrete.inner5)
        = some (encode [.raw [98, 111], .raw [104], .sigD 99 (.raw []) false,
            .sigD 99 (.raw []) true])
    ∧ (Concrete.cme.steady_decrypt (encode [.raw [7],
          .encD (.raw [5, 5]) (.raw [7]) Concrete.inner5,
          .tagD (.raw [5, 5]) (.raw [7]) Concrete.inner5])).1 = .error .keyError :=
  ⟨by decide, by decide,
    (steady_decrypt_auth_outcomes Concrete.cme [5, 5] (.raw [7])
        (.encD (.raw [5, 5]) (.raw [7]) Concrete.inner5)
        (.tagD (.raw [5, 5]) (.raw [7]) Concrete.inner5)
        (.raw [98, 111]) (.raw [104]) (.sigD 99 (.raw []) false) (.sigD 99 (.raw []) true)
        (by decide) (by decide)).1 (by decide)⟩

/-- C6 counterexample: an envelope whose first per-recipient entry's tag
verifies under the receiver's derived key but decrypts to the empty byte
string: the loop's `if sym_key:` treats the empty plaintext as a failure and
continues, and since no later entry authenticates the call fails with
`No decryption` — the claim's "takes `K_msg` from the first entry whose tag
verifies (stopping there)" does not hold. -/
theorem trial_skips_empty_plaintext_cx :
    quick_gcm_dec Concrete.K6 (.raw [9]) (.encD Concrete.K6 (.raw [9]) (.raw []))
        (.tagD Concrete.K6 (.raw [9]) (.raw [])) = some (.raw [])
    ∧ (Concrete.rc0.broadcast_decrypt Concrete.env6).1 = .error .noDecryption := by
  exact ⟨by decide, by decide⟩

/-- C6 (amended): trial decryption attempts the per-recipient entries in
list order with the single key derived from the receiver's own key material,
takes `K_msg` from the first entry that decrypts to a *truthy* (non-empty)
plaintext — an entry whose tag verifies but whose plaintext is empty is
skipped like a failure — and fails with the decryption failure
`No decryption` when no entry yields a truthy plaintext. -/
theorem broadcast_trial_first_truthy [DecidableEq Pt] [AddCommMonoid Pt]
    (rc : KulanClient Pt) (A B : Pt) (ivd i1 i2 : Data Pt) (l : List (Data Pt × Data Pt)) :
    ((l.map fun p =>
        quick_gcm_dec (.take 16 (derive_3DH_receiver A B rc.priv rc.priv_enc)) ivd p.1 p.2).find?
          pyTruthyO = none →
      (rc.broadcast_decrypt (encode [.ptD A, .ptD B, ivd,
          Data.ofList (l.map fun p => Data.ofList [p.1, p.2]),
          Data.ofList [i1, i2]])).1 = .error .noDecryption)
    ∧ ∀ sk, (l.map fun p =>
        quick_gcm_dec (.take 16 (derive_3DH_receiver A B rc.priv rc.priv_enc)) ivd p.1 p.2).find?
          pyTruthyO = some (some sk) →
      (rc.broadcast_decrypt (encode [.ptD A, .ptD B, ivd,
          Data.ofList (l.map fun p => Data.ofList [p.1, p.2]),
          Data.ofList [i1, i2]])).1
        = broadcast_finish rc sk ivd A (Data.ofList [i1, i2]) := by
  obtain ⟨res, hres, hcase⟩ :=
    trial_loop_find (.take 16 (derive_3DH_receiver A B rc.priv rc.priv_enc)) ivd l none rfl
  constructor
  · intro hnone
    rcases hcase with ⟨_, hf⟩ | ⟨ht, _⟩
    · rw [hnone] at hf
      exact absurd hf (by simp)
    · simp [KulanClient.broadcast_decrypt, decode_encode, List.get?, List.getLast?,
        hres, ht]
  · intro sk hsk
    rcases hcase with ⟨ht, hf⟩ | ⟨_, hf⟩
    · rw [hsk] at hf
      injection hf with hf
      subst hf
      simp [KulanClient.broadcast_decrypt, decode_encode, List.get?, List.getLast?,
        hres, ht, pyTruthyO] at ht ⊢
      simp [ht]
    · rw [hsk] at hf
      exact absurd hf (by simp)

theorem broadcast_trial_first_truthy_witness :
    (([((.raw [1] : Data ℤ), (.raw [1] : Data ℤ))].map fun p =>
        quick_gcm_dec (.take 16 (derive_3DH_receiver 2 4 Concrete.rc0.priv Concrete.rc0.priv_enc))
          (.raw [9]) p.1 p.2).find? pyTruthyO = none)
    ∧ (Concrete.rc0.broadcast_decrypt (encode [.ptD 2, .ptD 4, .raw [9],
        Data.ofList ([((.raw [1] : Data ℤ), (.raw [1] : Data ℤ))].map
          fun p => Data.ofList [p.1, p.2]),
        Data.ofList [.raw [2], .raw [2]]])).1 = .error .noDecryption :=
  ⟨by decide,
    (broadcast_trial_first_truthy Concrete.rc0 2 4 (.raw [9]) (.raw [2]) (.raw [2])
        [(.raw [1], .raw [1])]).1 (by decide)⟩

/-- C7: the client constructed with name `"a"` (bytes `[97]`) does not map
its own name to its signing public key in `current_dict`: line 75
initialises the dictionary with the literal key `"me"` (`[109, 101]`)
regardless of `name`, so the lookup of the client's own name fails. -/
theorem init_current_dict_me_literal :
    (KulanClient.init (1 : ℤ) [97] 2 [] 3 4).current_dict = [([109, 101], (3 : ℤ))]
    ∧ List.lookup [97] (KulanClient.init (1 : ℤ) [97] 2 [] 3 4).current_dict = none := by
  exact ⟨by decide, by decide⟩

/-- C8: for every client whose directory `pki` is empty, `broadcast_encrypt`
produces a structurally valid envelope whose per-recipient pair list is
empty, and `broadcast_decrypt` of that envelope by any receiver fails with
the no-matching-recipient decryption failure (`No decryption`). -/
theorem broadcast_empty_pki [DecidableEq Pt] [AddCommMonoid Pt] (c : KulanClient Pt)
    (p : Data Pt) (sym_key iv : List Nat) (h : c.pki = []) :
    (c.broadcast_encrypt p sym_key iv).1 = .ok (encode [.ptD c.pub, .ptD c.pub_enc,
        .raw iv, Data.ofList [],
        Data.ofList [.encD (.raw sym_key) (.raw iv) (encode [.raw c.name, .ptD c.pub_sign]),
          .tagD (.raw sym_key) (.raw iv) (encode [.raw c.name, .ptD c.pub_sign])]])
    ∧ ∀ (r : KulanClient Pt), (r.broadcast_decrypt (encode [.ptD c.pub, .ptD c.pub_enc,
        .raw iv, Data.ofList [],
        Data.ofList [.encD (.raw sym_key) (.raw iv) (encode [.raw c.name, .ptD c.pub_sign]),
          .tagD (.raw sym_key) (.raw iv) (encode [.raw c.name, .ptD c.pub_sign])]])).1
      = .error .noDecryption := by
  constructor
  · simp [KulanClient.broadcast_encrypt, h, quick_gcm_enc, List.mapM, List.mapM.loop,
      pure, Except.pure]
  · intro r
    simp [KulanClient.broadcast_decrypt, decode_encode, List.get?, List.getLast?,
      Data.ofList, trial_loop, pyTruthyO]

theorem broadcast_empty_pki_witness :
    Concrete.cme.pki = []
    ∧ (Concrete.rc0.broadcast_decrypt (encode [.ptD Concrete.cme.pub,
        .ptD Concrete.cme.pub_enc, .raw [2], Data.ofList [],
        Data.ofList [.encD (.raw [1]) (.raw [2])
            (encode [.raw Concrete.cme.name, .ptD Concrete.cme.pub_sign]),
          .tagD (.raw [1]) (.raw [2])
            (encode [.raw Concrete.cme.name, .ptD Concrete.cme.pub_sign])]])).1
      = .error .noDecryption :=
  ⟨by decide, (broadcast_empty_pki Concrete.cme (.raw []) [1] [2] (by decide)).2 Concrete.rc0⟩

/-- C10: `broadcast_encrypt`, `steady_encrypt` and `steady_decrypt` never
modify the client's state: after any call — succeeding or failing — the
returned client (carrying `Ks`, `current_dict`, `pki`, the names and every
key pair) equals the client before the call. -/
theorem encrypt_decrypt_frame [DecidableEq Pt] [AddCommMonoid Pt] (c : KulanClient Pt)
    (p ct : Data Pt) (sym_key iv m iv2 : List Nat) :
    (c.broadcast_encrypt p sym_key iv).2 = c
    ∧ (c.steady_encrypt m iv2).2 = c
    ∧ (c.steady_decrypt ct).2 = c := by
  refine ⟨?_, ?_, ?_⟩
  · unfold KulanClient.broadcast_encrypt
    dsimp only
    repeat' split
    all_goals rfl
  · unfold KulanClient.steady_encrypt
    dsimp only
    repeat' split
    all_goals rfl
  · unfold KulanClient.steady_decrypt
    dsimp only
    repeat' split
    all_goals rfl

end Kulan
